import Mathlib

/-!
Database pool lifecycle of `internal/database/database.go`.

A shallow embedding of the package `database` of the repository: the
process-wide variable `dbInstance`, the constructor `New`, and the methods
`Health`, `Close` and `Ping` of `*DB`.

Modelling conventions.

* Go pointers are addresses (`Nat`) into append-only heaps kept in `World`;
  `nil` is `none`.
* The library `pgxpool` is not part of the repository.  What `New` needs from
  it (`ParseConfig`, `NewWithConfig`) is a parameter of type `Pgxpool`; what
  `Health` and `Ping` need (the result of `Pool.Ping`, the sample of
  `Pool.Stat`) is an argument of the call.
* Go's `int`, `int32`, `int64` and `time.Duration` are `Int`; the code only
  compares, halves and prints them, so no operation can overflow (`int` is
  taken to be 64 bits wide, as on every platform the service targets).
* Go's `error` is the text of its message; `nil` is `none`.
* `slog` calls have no effect on the values studied and are dropped.
-/

namespace Database

/-! ## Configuration (`internal/config/config.go`) -/

/-- The struct `configVar`. -/
structure configVar where
  AppEnv : String
  AppURL : String
  Port : Int
  Host : String
  DatabaseURL : String
  DBDatabase : String
  DBPassword : String
  DBUsername : String
  DBPort : Int
  DBHost : String
  ClerkSDKKey : String
  deriving DecidableEq, Repr

/-- The struct `Config`; the `Viper` handle is never read by package
`database` and is left out. -/
structure Config where
  Env : configVar
  deriving DecidableEq, Repr

/-! ## Standard-library helpers -/

/-- The function `strconv.Itoa` (and `strconv.FormatInt` in base 10): the
decimal digits, preceded by a minus sign for a negative number. -/
def Itoa (n : Int) : String :=
  if n < 0 then "-" ++ Nat.repr n.natAbs else Nat.repr n.toNat

/-- The value of a decimal digit character. -/
def digitValue (c : Char) : Nat := c.toNat - '0'.toNat

/-- The number that a string of decimal digits denotes, read from the left. -/
def decimalValue (cs : List Char) : Nat :=
  cs.foldl (fun acc c => 10 * acc + digitValue c) 0

/-- The loop of `fmt.Sprintf` over the format: each of the verbs `%s`, `%v`
and `%w` prints the next operand (a string, or the message of an error), any
other character prints itself. -/
def sprintfAux : List Char → List String → String → String
  | '%' :: 's' :: rest, a :: args, acc => sprintfAux rest args (acc ++ a)
  | '%' :: 'v' :: rest, a :: args, acc => sprintfAux rest args (acc ++ a)
  | '%' :: 'w' :: rest, a :: args, acc => sprintfAux rest args (acc ++ a)
  | c :: rest, args, acc => sprintfAux rest args (acc.push c)
  | [], _, acc => acc

/-- The function `fmt.Sprintf`, for the verbs the package uses, each call
having as many operands as verbs.  `fmt.Errorf` builds its message the same
way. -/
def Sprintf (format : String) (args : List String) : String :=
  sprintfAux format.toList args ""

/-- The constant `time.Second`, in nanoseconds. -/
def Second : Int := 1000000000

/-- The constant `time.Minute`. -/
def Minute : Int := 60 * Second

/-- The constant `time.Hour`. -/
def Hour : Int := 60 * Minute

/-! ## The part of `pgxpool` seen by the package -/

/-- The fields of `pgxpool.Config` that `New` writes, with the rest of the
parse result kept as `ConnConfig`. -/
structure PoolConfig where
  ConnConfig : String
  MaxConns : Int
  MinConns : Int
  MaxConnLifetime : Int
  MaxConnIdleTime : Int
  HealthCheckPeriod : Int
  deriving DecidableEq, Repr

/-- The two library functions called by `New`.  `NewWithConfig` answers with
its error (`none` for success); the pool object itself is allocated by the
model. -/
structure Pgxpool where
  ParseConfig : String → Except String PoolConfig
  NewWithConfig : PoolConfig → Option String

/-- A pool object on the heap: the configuration it was built with and
whether `Close` has been called on it. -/
structure PoolObj where
  config : PoolConfig
  closed : Bool
  deriving DecidableEq, Repr

/-- The struct `DB`: `Client` is the address of a pool. -/
structure DB where
  Client : Nat
  deriving DecidableEq, Repr

/-- A call made into the library, as recorded in the log of the world. -/
inductive Call where
  | ParseConfig (connStr : String)
  | NewWithConfig (poolConfig : PoolConfig)
  | Close (pool : Nat)
  deriving DecidableEq, Repr

/-- The process state: the package variable `dbInstance`, the heap of `DB`
structs, the heap of pools and the log of library calls. -/
structure World where
  dbInstance : Option Nat
  dbs : List DB
  pools : List PoolObj
  calls : List Call
  deriving DecidableEq, Repr

/-- The state of a fresh process. -/
def World.init : World :=
  { dbInstance := none, dbs := [], pools := [], calls := [] }

/-- The pool behind the stored instance, when there is one. -/
def World.storedPool (w : World) : Option PoolObj :=
  match w.dbInstance with
  | none => none
  | some h =>
    match w.dbs[h]? with
    | none => none
    | some db => w.pools[db.Client]?

/-! ## `New` -/

/-- Lines 35-41: the `fmt.Sprintf` that builds the connection string. -/
def connStr (cfg : Config) : String :=
  Sprintf "postgres://%s:%s@%s:%s/%s?sslmode=disable"
    [cfg.Env.DBUsername,
     cfg.Env.DBPassword,
     cfg.Env.DBHost,
     Itoa cfg.Env.DBPort,
     cfg.Env.DBDatabase]

/-- Lines 49-53: the five assignments to the parsed pool configuration. -/
def setPoolConfig (poolConfig : PoolConfig) : PoolConfig :=
  { poolConfig with
    MaxConns := 50
    MinConns := 5
    MaxConnLifetime := 1 * Hour
    MaxConnIdleTime := 30 * Minute
    HealthCheckPeriod := 1 * Minute }

/-- The pair `(*DB, error)` returned by `New`. -/
structure NewResult where
  db : Option Nat
  err : Option String
  deriving DecidableEq, Repr

/-- The function `New`, run to completion without interference. -/
def New (lib : Pgxpool) (cfg : Config) (w : World) : NewResult × World :=
  match w.dbInstance with
  | some h => ({ db := some h, err := none }, w)
  | none =>
    let s := connStr cfg
    let w1 := { w with calls := w.calls ++ [Call.ParseConfig s] }
    match lib.ParseConfig s with
    | .error e =>
      ({ db := none, err := some (Sprintf "unable to parse pool config: %w" [e]) }, w1)
    | .ok parsed =>
      let poolConfig := setPoolConfig parsed
      let w2 := { w1 with calls := w1.calls ++ [Call.NewWithConfig poolConfig] }
      match lib.NewWithConfig poolConfig with
      | some e =>
        ({ db := none, err := some (Sprintf "unable to create database pool: %w" [e]) }, w2)
      | none =>
        let pool := w2.pools.length
        let w3 := { w2 with pools := w2.pools ++ [PoolObj.mk poolConfig false] }
        let w4 := { w3 with dbs := w3.dbs ++ [DB.mk pool], dbInstance := some w3.dbs.length }
        ({ db := w4.dbInstance, err := none }, w4)

/-! ## `Health`, `Close`, `Ping` -/

/-- A Go `map[string]string`, as an association list without repeated keys. -/
abbrev StrMap := List (String × String)

/-- The assignment `m[k] = v`: overwrite the entry of `k`, or add one. -/
def StrMap.set : StrMap → String → String → StrMap
  | [], k, v => [(k, v)]
  | (k', v') :: rest, k, v =>
    if k' = k then (k, v) :: rest else (k', v') :: StrMap.set rest k v

/-- The lookup `m[k]`, with `none` for an absent key. -/
def StrMap.get? : StrMap → String → Option String
  | [], _ => none
  | (k', v') :: rest, k => if k' = k then some v' else StrMap.get? rest k

/-- The keys of a map. -/
def StrMap.keys (m : StrMap) : List String := m.map Prod.fst

/-- The sample returned by `Pool.Stat()`, one field for each accessor that
`Health` calls. -/
structure Stat where
  TotalConns : Int
  AcquiredConns : Int
  IdleConns : Int
  MaxConns : Int
  CanceledAcquireCount : Int
  AcquireDuration : Int
  EmptyAcquireCount : Int
  MaxIdleDestroyCount : Int
  MaxLifetimeDestroyCount : Int
  deriving DecidableEq, Repr

/-- The method `Health`.  `pingErr` is what `db.Client.Ping(ctx)` returned
under the one-second deadline, `poolStats` is what `db.Client.Stat()` returns,
and `durationString` is `time.Duration.String`. -/
def Health (durationString : Int → String) (pingErr : Option String) (poolStats : Stat) :
    StrMap :=
  let stats : StrMap := []
  match pingErr with
  | some err =>
    let stats := stats.set "status" "down"
    let stats := stats.set "error" (Sprintf "db down: %v" [err])
    stats
  | none =>
    let stats := stats.set "status" "up"
    let stats := stats.set "message" "It's healthy"
    let stats := stats.set "total_connections" (Itoa poolStats.TotalConns)
    let stats := stats.set "acquired_connections" (Itoa poolStats.AcquiredConns)
    let stats := stats.set "idle_connections" (Itoa poolStats.IdleConns)
    let stats := stats.set "max_connections" (Itoa poolStats.MaxConns)
    let stats := stats.set "canceled_acquires" (Itoa poolStats.CanceledAcquireCount)
    let stats := stats.set "acquisition_duration" (durationString poolStats.AcquireDuration)
    let stats := stats.set "construction_wait_count" (Itoa poolStats.EmptyAcquireCount)
    let stats :=
      if poolStats.TotalConns > 40 then
        stats.set "message" "The database is experiencing heavy load."
      else stats
    let stats :=
      if poolStats.EmptyAcquireCount > 1000 then
        stats.set "message" "High number of acquisitions that had to wait for connection construction, indicating potential bottlenecks."
      else stats
    let stats :=
      if poolStats.MaxIdleDestroyCount > Int.tdiv poolStats.TotalConns 2 then
        stats.set "message" "Many idle connections are being closed, consider revising the connection pool settings."
      else stats
    let stats :=
      if poolStats.MaxLifetimeDestroyCount > Int.tdiv poolStats.TotalConns 2 then
        stats.set "message" "Many connections are being closed due to max lifetime, consider increasing max lifetime or revising the connection usage pattern."
      else stats
    stats

/-- Mark the pool at an address as closed. -/
def closePool : List PoolObj → Nat → List PoolObj
  | [], _ => []
  | p :: rest, 0 => { p with closed := true } :: rest
  | p :: rest, n + 1 => p :: closePool rest n

/-- The method `Close` on the struct `db`: it calls `db.Client.Close()` and
returns `nil`. -/
def Close (db : DB) (w : World) : Option String × World :=
  let w1 := { w with
    pools := closePool w.pools db.Client
    calls := w.calls ++ [Call.Close db.Client] }
  (none, w1)

/-- The method `Ping`: the error of `db.Client.Ping(ctx)` is returned as it
is. -/
def Ping (pingErr : Option String) : Option String :=
  match pingErr with
  | some err => some err
  | none => none

/-! ## Sequences of calls -/

/-- One call on the package, with what the library answers during it. -/
inductive Op where
  | New (lib : Pgxpool) (cfg : Config)
  | Close (db : DB)
  | Ping (db : DB) (pingErr : Option String)
  | Health (db : DB) (pingErr : Option String) (poolStats : Stat)

/-- The effect of one call on the process state. -/
def step (w : World) : Op → World
  | .New lib cfg => (New lib cfg w).2
  | .Close db => (Close db w).2
  | .Ping _ _ => w
  | .Health _ _ _ => w

/-- The effect of a sequence of calls, one after the other. -/
def run (w : World) (ops : List Op) : World := ops.foldl step w

/-- The lifecycle of the pool resource. -/
inductive Lifecycle where
  | Uninitialized
  | Created
  | Closed
  deriving DecidableEq, Repr

/-- The lifecycle state of a world: `Uninitialized` while `dbInstance` is
`nil`, then `Created` until `Close` has been called on the stored pool. -/
def World.lifecycle (w : World) : Option Lifecycle :=
  match w.dbInstance with
  | none => some .Uninitialized
  | some _ =>
    match w.storedPool with
    | none => none
    | some po => if po.closed then some .Closed else some .Created

/-! ## `New` under interleaving -/

/-- Where a goroutine stands inside `New`, by the line it executes next. -/
inductive NewPc where
  | line31
  | line32
  | line35
  | line60 (pool : Nat)
  | line64
  | returned (r : NewResult)
  deriving DecidableEq, Repr

/-- One step of a goroutine inside `New`; each step reads or writes
`dbInstance` at most once. -/
def NewStep (lib : Pgxpool) (cfg : Config) (pc : NewPc) (w : World) : NewPc × World :=
  match pc with
  | .line31 =>
    match w.dbInstance with
    | some _ => (.line32, w)
    | none => (.line35, w)
  | .line32 => (.returned { db := w.dbInstance, err := none }, w)
  | .line35 =>
    let s := connStr cfg
    let w1 := { w with calls := w.calls ++ [Call.ParseConfig s] }
    match lib.ParseConfig s with
    | .error e =>
      (.returned { db := none, err := some (Sprintf "unable to parse pool config: %w" [e]) }, w1)
    | .ok parsed =>
      let poolConfig := setPoolConfig parsed
      let w2 := { w1 with calls := w1.calls ++ [Call.NewWithConfig poolConfig] }
      match lib.NewWithConfig poolConfig with
      | some e =>
        (.returned { db := none, err := some (Sprintf "unable to create database pool: %w" [e]) }, w2)
      | none =>
        (.line60 w2.pools.length,
          { w2 with pools := w2.pools ++ [PoolObj.mk poolConfig false] })
  | .line60 pool =>
    (.line64, { w with dbs := w.dbs ++ [DB.mk pool], dbInstance := some w.dbs.length })
  | .line64 => (.returned { db := w.dbInstance, err := none }, w)
  | .returned r => (.returned r, w)

/-- A goroutine that runs `New`. -/
structure Goroutine where
  lib : Pgxpool
  cfg : Config
  pc : NewPc

/-- Let goroutine `i` take its next step. -/
def schedStep (gw : List Goroutine × World) (i : Nat) : List Goroutine × World :=
  match gw.1[i]? with
  | none => gw
  | some g =>
    let r := NewStep g.lib g.cfg g.pc gw.2
    (gw.1.set i { g with pc := r.1 }, r.2)

/-- Run the goroutines under a schedule, the list of who moves next. -/
def schedRun (gw : List Goroutine × World) (schedule : List Nat) : List Goroutine × World :=
  schedule.foldl schedStep gw

/-- A goroutine running alone for `n` steps. -/
def runAlone (lib : Pgxpool) (cfg : Config) : Nat → NewPc × World → NewPc × World
  | 0, s => s
  | n + 1, s => runAlone lib cfg n (NewStep lib cfg s.1 s.2)

/-! ## The classification as the specification words it -/

/-- The four rules of the specification in their order, each with whether
it matches the sample and with its text. -/
def specRules (st : Stat) : List (Bool × String) :=
  [(decide (st.TotalConns > 40),
      "The database is experiencing heavy load."),
   (decide (st.EmptyAcquireCount > 1000),
      "High number of acquisitions that had to wait for connection construction, indicating potential bottlenecks."),
   (decide (st.MaxIdleDestroyCount > Int.tdiv st.TotalConns 2),
      "Many idle connections are being closed, consider revising the connection pool settings."),
   (decide (st.MaxLifetimeDestroyCount > Int.tdiv st.TotalConns 2),
      "Many connections are being closed due to max lifetime, consider increasing max lifetime or revising the connection usage pattern.")]

/-- The text of the last rule that matches, and the default text when none
does. -/
def specMessage (st : Stat) : String :=
  match ((specRules st).filter Prod.fst).getLast? with
  | some r => r.2
  | none => "It's healthy"

/-! ## Concrete inputs -/

/-- A library in which every connection string that starts with the scheme
parses and every pool can be built. -/
def libOk : Pgxpool where
  ParseConfig s :=
    if "postgres://".toList.isPrefixOf s.toList then
      .ok { ConnConfig := s, MaxConns := 4, MinConns := 0, MaxConnLifetime := Hour,
            MaxConnIdleTime := 30 * Minute, HealthCheckPeriod := Minute }
    else .error "cannot parse"
  NewWithConfig _ := none

/-- A library whose parser refuses every string. -/
def libNoParse : Pgxpool where
  ParseConfig _ := .error "cannot parse"
  NewWithConfig _ := none

/-- A library that parses but cannot build a pool. -/
def libNoPool : Pgxpool where
  ParseConfig s :=
    .ok { ConnConfig := s, MaxConns := 4, MinConns := 0, MaxConnLifetime := Hour,
          MaxConnIdleTime := 30 * Minute, HealthCheckPeriod := Minute }
  NewWithConfig _ := some "out of resources"

/-- The configuration of the defaults in `setDefaults`. -/
def cfgA : Config :=
  { Env := { AppEnv := "development", AppURL := "", Port := 3000, Host := "",
             DatabaseURL := "postgres://postgres@localhost:5432/piscineDB?sslmode=disable",
             DBDatabase := "piscineDB", DBPassword := "", DBUsername := "postgres",
             DBPort := 5432, DBHost := "localhost", ClerkSDKKey := "" } }

/-- A configuration for another database, with the same `DATABASE_URL`. -/
def cfgB : Config :=
  { Env := { AppEnv := "production", AppURL := "", Port := 8080, Host := "",
             DatabaseURL := "postgres://postgres@localhost:5432/piscineDB?sslmode=disable",
             DBDatabase := "orders", DBPassword := "pw", DBUsername := "app",
             DBPort := 6543, DBHost := "db.internal", ClerkSDKKey := "" } }

/-- The sample with 45 connections and every other count at zero. -/
def statHeavy : Stat :=
  { TotalConns := 45, AcquiredConns := 0, IdleConns := 0, MaxConns := 0,
    CanceledAcquireCount := 0, AcquireDuration := 0, EmptyAcquireCount := 0,
    MaxIdleDestroyCount := 0, MaxLifetimeDestroyCount := 0 }

/-! ## The four ways through `New` -/

theorem New_of_stored (lib : Pgxpool) (cfg : Config) {w : World} {h : Nat}
    (hw : w.dbInstance = some h) :
    New lib cfg w = ({ db := some h, err := none }, w) := by
  unfold New
  rw [hw]

theorem New_of_parse_error (lib : Pgxpool) (cfg : Config) {w : World} {e : String}
    (hw : w.dbInstance = none) (hp : lib.ParseConfig (connStr cfg) = .error e) :
    New lib cfg w =
      ({ db := none, err := some (Sprintf "unable to parse pool config: %w" [e]) },
        { w with calls := w.calls ++ [Call.ParseConfig (connStr cfg)] }) := by
  unfold New
  rw [hw]
  simp only [hp]

theorem New_of_pool_error (lib : Pgxpool) (cfg : Config) {w : World} {parsed : PoolConfig}
    {e : String} (hw : w.dbInstance = none) (hp : lib.ParseConfig (connStr cfg) = .ok parsed)
    (hn : lib.NewWithConfig (setPoolConfig parsed) = some e) :
    New lib cfg w =
      ({ db := none, err := some (Sprintf "unable to create database pool: %w" [e]) },
        { w with calls := w.calls ++ [Call.ParseConfig (connStr cfg)] ++
            [Call.NewWithConfig (setPoolConfig parsed)] }) := by
  unfold New
  rw [hw]
  simp only [hp, hn]

theorem New_of_success (lib : Pgxpool) (cfg : Config) {w : World} {parsed : PoolConfig}
    (hw : w.dbInstance = none) (hp : lib.ParseConfig (connStr cfg) = .ok parsed)
    (hn : lib.NewWithConfig (setPoolConfig parsed) = none) :
    New lib cfg w =
      ({ db := some w.dbs.length, err := none },
        { dbInstance := some w.dbs.length
          dbs := w.dbs ++ [DB.mk w.pools.length]
          pools := w.pools ++ [PoolObj.mk (setPoolConfig parsed) false]
          calls := w.calls ++ [Call.ParseConfig (connStr cfg)] ++
            [Call.NewWithConfig (setPoolConfig parsed)] }) := by
  unfold New
  rw [hw]
  simp only [hp, hn]

/-- A call of `New` that returns no error leaves its handle in `dbInstance`. -/
theorem New_ok_stored (lib : Pgxpool) (cfg : Config) (w : World)
    (hok : (New lib cfg w).1.err = none) :
    ∃ h, (New lib cfg w).1.db = some h ∧ (New lib cfg w).2.dbInstance = some h := by
  cases hw : w.dbInstance with
  | some h => exact ⟨h, by rw [New_of_stored lib cfg hw], by rw [New_of_stored lib cfg hw]; exact hw⟩
  | none =>
    cases hp : lib.ParseConfig (connStr cfg) with
    | error e => rw [New_of_parse_error lib cfg hw hp] at hok; simp at hok
    | ok parsed =>
      cases hn : lib.NewWithConfig (setPoolConfig parsed) with
      | some e => rw [New_of_pool_error lib cfg hw hp hn] at hok; simp at hok
      | none => exact ⟨w.dbs.length, by rw [New_of_success lib cfg hw hp hn], by rw [New_of_success lib cfg hw hp hn]⟩

/-- After a successful first call the stored pool is the one just built. -/
theorem storedPool_New_of_success (lib : Pgxpool) (cfg : Config) {w : World}
    {parsed : PoolConfig} (hw : w.dbInstance = none)
    (hp : lib.ParseConfig (connStr cfg) = .ok parsed)
    (hn : lib.NewWithConfig (setPoolConfig parsed) = none) :
    (New lib cfg w).2.storedPool = some (PoolObj.mk (setPoolConfig parsed) false) := by
  rw [New_of_success lib cfg hw hp hn]
  simp [World.storedPool]

/-! ## Decimal rendering -/

theorem digitValue_digitChar (d : Nat) (hd : d < 10) : digitValue (Nat.digitChar d) = d := by
  interval_cases d <;> rfl

theorem foldl_toDigitsCore (fuel n : Nat) (ds : List Char) (hn : n < fuel) :
    (Nat.toDigitsCore 10 fuel n ds).foldl (fun acc c => 10 * acc + digitValue c) 0 =
      ds.foldl (fun acc c => 10 * acc + digitValue c) n := by
  induction fuel generalizing n ds with
  | zero => omega
  | succ fuel ih =>
    unfold Nat.toDigitsCore
    have hd := digitValue_digitChar (n % 10) (Nat.mod_lt _ (by decide))
    by_cases h0 : n / 10 = 0
    · have hm : n % 10 = n := Nat.mod_eq_of_lt (by omega)
      rw [if_pos h0]
      simp only [List.foldl_cons, Nat.mul_zero, Nat.zero_add]
      rw [hd, hm]
    · rw [if_neg h0]
      rw [ih (n / 10) _ (by omega)]
      simp only [List.foldl_cons, hd]
      congr 1
      omega

theorem decimalValue_repr (n : Nat) : decimalValue (Nat.repr n).toList = n := by
  unfold decimalValue Nat.repr Nat.toDigits
  simp only [List.asString, String.toList]
  rw [foldl_toDigitsCore _ _ _ (Nat.lt_succ_self n)]
  rfl

/-- The output of `Itoa` is a minus sign for a negative number followed by
digits whose decimal value is the magnitude. -/
theorem Itoa_decimal (n : Int) :
    Itoa n = (if n < 0 then "-" else "") ++ Nat.repr n.natAbs ∧
      decimalValue (Nat.repr n.natAbs).toList = n.natAbs := by
  refine ⟨?_, decimalValue_repr _⟩
  unfold Itoa
  by_cases h : n < 0
  · simp [h]
  · have : n.toNat = n.natAbs := by omega
    simp [h, this]

/-- The connection string written out as a concatenation. -/
theorem connStr_eq (cfg : Config) :
    connStr cfg =
      "postgres://" ++ cfg.Env.DBUsername ++ ":" ++ cfg.Env.DBPassword ++ "@" ++
        cfg.Env.DBHost ++ ":" ++ Itoa cfg.Env.DBPort ++ "/" ++ cfg.Env.DBDatabase ++
        "?sslmode=disable" := by
  have hf : "postgres://%s:%s@%s:%s/%s?sslmode=disable".toList =
      ['p', 'o', 's', 't', 'g', 'r', 'e', 's', ':', '/', '/', '%', 's', ':', '%', 's', '@',
       '%', 's', ':', '%', 's', '/', '%', 's', '?', 's', 's', 'l', 'm', 'o', 'd', 'e', '=',
       'd', 'i', 's', 'a', 'b', 'l', 'e'] := by rfl
  unfold connStr Sprintf
  rw [hf]
  simp only [sprintfAux]
  apply String.ext
  simp [String.data_push, String.data_append]

/-! ## The claims about `New` -/

/-- C1: when `dbInstance` already holds an instance, `New` returns that
instance with a nil error and leaves the whole process state as it was (no
library call, no new pool), whatever the configuration; hence after a
successful `New` every later `New` returns the same handle, and the pool stored
by a first successful call keeps its 50/5 settings across the second call. -/
theorem New_reuses_stored_instance (lib lib' : Pgxpool) (cfg cfg' : Config) (w : World) :
    (∀ h, w.dbInstance = some h →
      New lib' cfg' w = ({ db := some h, err := none }, w)) ∧
    ((New lib cfg w).1.err = none →
      ∃ h, (New lib cfg w).1.db = some h ∧
        New lib' cfg' (New lib cfg w).2 =
          ({ db := some h, err := none }, (New lib cfg w).2)) ∧
    (w.dbInstance = none → (New lib cfg w).1.err = none →
      ∃ po, (New lib cfg w).2.storedPool = some po ∧
        po.config.MaxConns = 50 ∧ po.config.MinConns = 5 ∧
        (New lib' cfg' (New lib cfg w).2).2.storedPool = some po ∧
        (New lib' cfg' (New lib cfg w).2).2.pools = (New lib cfg w).2.pools) := by
  refine ⟨fun h hw => New_of_stored lib' cfg' hw, fun hok => ?_, fun hw hok => ?_⟩
  · obtain ⟨h, hdb, hst⟩ := New_ok_stored lib cfg w hok
    exact ⟨h, hdb, New_of_stored lib' cfg' hst⟩
  · obtain ⟨h, _, hst⟩ := New_ok_stored lib cfg w hok
    rw [New_of_stored lib' cfg' hst]
    cases hp : lib.ParseConfig (connStr cfg) with
    | error e => rw [New_of_parse_error lib cfg hw hp] at hok; simp at hok
    | ok parsed =>
      cases hn : lib.NewWithConfig (setPoolConfig parsed) with
      | some e => rw [New_of_pool_error lib cfg hw hp hn] at hok; simp at hok
      | none =>
        exact ⟨_, storedPool_New_of_success lib cfg hw hp hn, rfl, rfl,
          storedPool_New_of_success lib cfg hw hp hn, rfl⟩

/-- A first `New` on the defaults, then `New` on another configuration with a library that would fail. -/
theorem New_reuses_stored_instance_witness :
    New libNoParse cfgB (New libOk cfgA World.init).2 =
        ({ db := some 0, err := none }, (New libOk cfgA World.init).2) ∧
      (∃ h, (New libOk cfgA World.init).1.db = some h ∧
        New libNoPool cfgB (New libOk cfgA World.init).2 =
          ({ db := some h, err := none }, (New libOk cfgA World.init).2)) ∧
      (∃ po, (New libOk cfgA World.init).2.storedPool = some po ∧
        po.config.MaxConns = 50 ∧ po.config.MinConns = 5 ∧
        (New libNoParse cfgB (New libOk cfgA World.init).2).2.storedPool = some po ∧
        (New libNoParse cfgB (New libOk cfgA World.init).2).2.pools =
          (New libOk cfgA World.init).2.pools) :=
  ⟨(New_reuses_stored_instance libOk libNoParse cfgA cfgB (New libOk cfgA World.init).2).1 0
      (by decide),
    (New_reuses_stored_instance libOk libNoPool cfgA cfgB World.init).2.1 (by decide),
    (New_reuses_stored_instance libOk libNoParse cfgA cfgB World.init).2.2 (by decide)
      (by decide)⟩

/-- C4: from the uninitialized state `New` returns an error exactly when the
parser refuses the connection string or the pool cannot be built from the
configured settings; on an error the handle is nil, `dbInstance` stays nil, no
pool or `DB` is allocated, and a later `New` goes to the parser again; with no
error the fresh `DB` (holding the fresh pool) is stored in `dbInstance` and is
the handle returned. -/
theorem New_failure_atomic (lib lib' : Pgxpool) (cfg cfg' : Config) (w : World)
    (hw : w.dbInstance = none) :
    ((New lib cfg w).1.err ≠ none ↔
      ((∃ e, lib.ParseConfig (connStr cfg) = .error e) ∨
        ∃ parsed e, lib.ParseConfig (connStr cfg) = .ok parsed ∧
          lib.NewWithConfig (setPoolConfig parsed) = some e)) ∧
    ((New lib cfg w).1.err ≠ none →
      (New lib cfg w).1.db = none ∧ (New lib cfg w).2.dbInstance = none ∧
        (New lib cfg w).2.pools = w.pools ∧ (New lib cfg w).2.dbs = w.dbs ∧
        ∃ rest, (New lib' cfg' (New lib cfg w).2).2.calls =
          (New lib cfg w).2.calls ++ Call.ParseConfig (connStr cfg') :: rest) ∧
    ((New lib cfg w).1.err = none →
      ∃ parsed, lib.ParseConfig (connStr cfg) = .ok parsed ∧
        (New lib cfg w).1.db = some w.dbs.length ∧
        (New lib cfg w).2.dbInstance = some w.dbs.length ∧
        (New lib cfg w).2.dbs = w.dbs ++ [DB.mk w.pools.length] ∧
        (New lib cfg w).2.pools = w.pools ++ [PoolObj.mk (setPoolConfig parsed) false]) := by
  have again : ∀ w1 : World, w1.dbInstance = none →
      ∃ rest, (New lib' cfg' w1).2.calls =
        w1.calls ++ Call.ParseConfig (connStr cfg') :: rest := by
    intro w1 h1
    cases hp' : lib'.ParseConfig (connStr cfg') with
    | error e => exact ⟨[], by rw [New_of_parse_error lib' cfg' h1 hp']⟩
    | ok parsed =>
      cases hn' : lib'.NewWithConfig (setPoolConfig parsed) with
      | some e =>
        exact ⟨[Call.NewWithConfig (setPoolConfig parsed)], by
          rw [New_of_pool_error lib' cfg' h1 hp' hn']; simp⟩
      | none =>
        exact ⟨[Call.NewWithConfig (setPoolConfig parsed)], by
          rw [New_of_success lib' cfg' h1 hp' hn']; simp⟩
  cases hp : lib.ParseConfig (connStr cfg) with
  | error e =>
    rw [New_of_parse_error lib cfg hw hp]
    refine ⟨by simp, fun _ => ⟨rfl, hw, rfl, rfl, again _ hw⟩, fun hok => by simp at hok⟩
  | ok parsed =>
    cases hn : lib.NewWithConfig (setPoolConfig parsed) with
    | some e =>
      rw [New_of_pool_error lib cfg hw hp hn]
      refine ⟨by simp [hn], fun _ => ⟨rfl, hw, rfl, rfl, again _ hw⟩, fun hok => by simp at hok⟩
    | none =>
      rw [New_of_success lib cfg hw hp hn]
      refine ⟨by simp [hn], fun hne => by simp at hne, fun _ => ⟨parsed, rfl, rfl, rfl, rfl, rfl⟩⟩

/-- A `New` whose pool cannot be built, then a `New` that succeeds, from the fresh process. -/
theorem New_failure_atomic_witness :
    ((New libNoPool cfgA World.init).1.db = none ∧
      (New libNoPool cfgA World.init).2.dbInstance = none ∧
      (New libNoPool cfgA World.init).2.pools = World.init.pools ∧
      (New libNoPool cfgA World.init).2.dbs = World.init.dbs ∧
      ∃ rest, (New libOk cfgB (New libNoPool cfgA World.init).2).2.calls =
        (New libNoPool cfgA World.init).2.calls ++ Call.ParseConfig (connStr cfgB) :: rest) ∧
    (∃ parsed, libOk.ParseConfig (connStr cfgA) = .ok parsed ∧
      (New libOk cfgA World.init).1.db = some World.init.dbs.length ∧
      (New libOk cfgA World.init).2.dbInstance = some World.init.dbs.length ∧
      (New libOk cfgA World.init).2.dbs = World.init.dbs ++ [DB.mk World.init.pools.length] ∧
      (New libOk cfgA World.init).2.pools =
        World.init.pools ++ [PoolObj.mk (setPoolConfig parsed) false]) :=
  ⟨(New_failure_atomic libNoPool libOk cfgA cfgB World.init (by decide)).2.1 (by decide),
    (New_failure_atomic libOk libOk cfgA cfgB World.init (by decide)).2.2 (by decide)⟩

/-- C5: the connection string is the scheme, user, password, host, decimal
port and database name joined as in the format, it is the string that `New`
hands to the parser (the first library call of a `New` that finds no stored
instance), two configurations that agree on these five fields give the
same string, whatever their `DATABASE_URL` and other fields, and the port is
written as its sign followed by the decimal digits of its magnitude. -/
theorem connStr_format (lib : Pgxpool) (cfg cfg' : Config) (w : World) :
    connStr cfg =
      "postgres://" ++ cfg.Env.DBUsername ++ ":" ++ cfg.Env.DBPassword ++ "@" ++
        cfg.Env.DBHost ++ ":" ++ Itoa cfg.Env.DBPort ++ "/" ++ cfg.Env.DBDatabase ++
        "?sslmode=disable" ∧
    (w.dbInstance = none →
      ∃ rest, (New lib cfg w).2.calls = w.calls ++ Call.ParseConfig (connStr cfg) :: rest ∧
        ∀ s, Call.ParseConfig s ∉ rest) ∧
    (cfg.Env.DBUsername = cfg'.Env.DBUsername → cfg.Env.DBPassword = cfg'.Env.DBPassword →
      cfg.Env.DBHost = cfg'.Env.DBHost → cfg.Env.DBPort = cfg'.Env.DBPort →
      cfg.Env.DBDatabase = cfg'.Env.DBDatabase → connStr cfg = connStr cfg') ∧
    (Itoa cfg.Env.DBPort =
        (if cfg.Env.DBPort < 0 then "-" else "") ++ Nat.repr cfg.Env.DBPort.natAbs ∧
      decimalValue (Nat.repr cfg.Env.DBPort.natAbs).toList = cfg.Env.DBPort.natAbs) := by
  refine ⟨connStr_eq cfg, fun hw => ?_, fun h1 h2 h3 h4 h5 => ?_, Itoa_decimal _⟩
  · cases hp : lib.ParseConfig (connStr cfg) with
    | error e => exact ⟨[], by rw [New_of_parse_error lib cfg hw hp], by simp⟩
    | ok parsed =>
      cases hn : lib.NewWithConfig (setPoolConfig parsed) with
      | some e =>
        exact ⟨[Call.NewWithConfig (setPoolConfig parsed)], by
          rw [New_of_pool_error lib cfg hw hp hn]; simp, by simp⟩
      | none =>
        exact ⟨[Call.NewWithConfig (setPoolConfig parsed)], by
          rw [New_of_success lib cfg hw hp hn]; simp, by simp⟩
  · unfold connStr
    rw [h1, h2, h3, h4, h5]

/-- C6: when the connection string parses, the settings handed to the pool
constructor are 50 and 5 connections, one hour, thirty minutes and one minute
(in nanoseconds), whatever the configuration and whatever the parser produced,
and they satisfy max >= min >= 0 with every duration positive. -/
theorem New_pool_policy (lib : Pgxpool) (cfg : Config) (w : World) (parsed : PoolConfig)
    (hw : w.dbInstance = none) (hp : lib.ParseConfig (connStr cfg) = .ok parsed) :
    (∃ rest, (New lib cfg w).2.calls =
      w.calls ++ [Call.ParseConfig (connStr cfg), Call.NewWithConfig (setPoolConfig parsed)]
        ++ rest ∧ ∀ c, Call.NewWithConfig c ∉ rest) ∧
    (setPoolConfig parsed).MaxConns = 50 ∧
    (setPoolConfig parsed).MinConns = 5 ∧
    (setPoolConfig parsed).MaxConnLifetime = 3600 * 1000000000 ∧
    (setPoolConfig parsed).MaxConnIdleTime = 30 * 60 * 1000000000 ∧
    (setPoolConfig parsed).HealthCheckPeriod = 60 * 1000000000 ∧
    (setPoolConfig parsed).ConnConfig = parsed.ConnConfig ∧
    (setPoolConfig parsed).MaxConns ≥ (setPoolConfig parsed).MinConns ∧
    (setPoolConfig parsed).MinConns ≥ 0 ∧
    (setPoolConfig parsed).MaxConnLifetime > 0 ∧
    (setPoolConfig parsed).MaxConnIdleTime > 0 ∧
    (setPoolConfig parsed).HealthCheckPeriod > 0 := by
  have hv : ∀ p : PoolConfig, (setPoolConfig p).MaxConns = 50 ∧ (setPoolConfig p).MinConns = 5 ∧
      (setPoolConfig p).MaxConnLifetime = 3600 * 1000000000 ∧
      (setPoolConfig p).MaxConnIdleTime = 30 * 60 * 1000000000 ∧
      (setPoolConfig p).HealthCheckPeriod = 60 * 1000000000 :=
    fun _ => ⟨rfl, rfl,
      (by decide : (1 * Hour : Int) = 3600 * 1000000000),
      (by decide : (30 * Minute : Int) = 30 * 60 * 1000000000),
      (by decide : (1 * Minute : Int) = 60 * 1000000000)⟩
  obtain ⟨h1, h2, h3, h4, h5⟩ := hv parsed
  refine ⟨?_, h1, h2, h3, h4, h5, rfl, ?_, ?_, ?_, ?_, ?_⟩
  rotate_left
  · rw [h1, h2]; decide
  · rw [h2]; decide
  · rw [h3]; decide
  · rw [h4]; decide
  · rw [h5]; decide
  cases hn : lib.NewWithConfig (setPoolConfig parsed) with
  | some e => exact ⟨[], by rw [New_of_pool_error lib cfg hw hp hn]; simp, by simp⟩
  | none => exact ⟨[], by rw [New_of_success lib cfg hw hp hn]; simp, by simp⟩

/-! ## The claims about `Health` -/

theorem StrMap.get?_ne_none_iff (m : StrMap) (k : String) :
    m.get? k ≠ none ↔ k ∈ m.keys := by
  induction m with
  | nil => simp [StrMap.get?, StrMap.keys]
  | cons e rest ih =>
    obtain ⟨k', v'⟩ := e
    unfold StrMap.get?
    by_cases hk : k' = k
    · simp [hk, StrMap.keys]
    · have hk' : ¬ k = k' := fun h => hk h.symm
      simpa [hk, hk', StrMap.keys] using ih

theorem Sprintf_db_down (cause : String) :
    Sprintf "db down: %v" [cause] = "db down: " ++ cause := by
  have hf : "db down: %v".toList =
      ['d', 'b', ' ', 'd', 'o', 'w', 'n', ':', ' ', '%', 'v'] := by rfl
  unfold Sprintf
  rw [hf]
  simp only [sprintfAux]
  apply String.ext
  simp [String.data_push, String.data_append]

/-- C2: when the liveness check succeeds the status is `up` and the message
is the text of the last matching rule in the order total > 40,
emptyAcquire > 1000, idleDestroy > total / 2, lifetimeDestroy > total / 2
(truncating division), or the healthy text when none matches; so 45
connections with the other counts at zero give the heavy-load text, and a
match of the fourth rule always gives the max-lifetime text. -/
theorem Health_last_match_wins (durationString : Int → String) (st : Stat) :
    (Health durationString none st).get? "status" = some "up" ∧
    (Health durationString none st).get? "message" = some (specMessage st) ∧
    (st.TotalConns = 45 → st.EmptyAcquireCount = 0 → st.MaxIdleDestroyCount = 0 →
      st.MaxLifetimeDestroyCount = 0 →
      (Health durationString none st).get? "message" =
        some "The database is experiencing heavy load.") ∧
    (st.MaxLifetimeDestroyCount > Int.tdiv st.TotalConns 2 →
      (Health durationString none st).get? "message" =
        some "Many connections are being closed due to max lifetime, consider increasing max lifetime or revising the connection usage pattern.") ∧
    (¬ st.TotalConns > 40 → ¬ st.EmptyAcquireCount > 1000 →
      ¬ st.MaxIdleDestroyCount > Int.tdiv st.TotalConns 2 →
      ¬ st.MaxLifetimeDestroyCount > Int.tdiv st.TotalConns 2 →
      (Health durationString none st).get? "message" = some "It's healthy") := by
  have hmsg : (Health durationString none st).get? "message" = some (specMessage st) := by
    unfold Health specMessage specRules
    by_cases h1 : st.TotalConns > 40 <;> by_cases h2 : st.EmptyAcquireCount > 1000 <;>
      by_cases h3 : st.MaxIdleDestroyCount > Int.tdiv st.TotalConns 2 <;>
      by_cases h4 : st.MaxLifetimeDestroyCount > Int.tdiv st.TotalConns 2 <;>
      simp [StrMap.set, StrMap.get?, h1, h2, h3, h4]
  refine ⟨?_, hmsg, ?_, ?_, ?_⟩
  · unfold Health
    by_cases h1 : st.TotalConns > 40 <;> by_cases h2 : st.EmptyAcquireCount > 1000 <;>
      by_cases h3 : st.MaxIdleDestroyCount > Int.tdiv st.TotalConns 2 <;>
      by_cases h4 : st.MaxLifetimeDestroyCount > Int.tdiv st.TotalConns 2 <;>
      simp [StrMap.set, StrMap.get?, h1, h2, h3, h4]
  · intro ht he hi hl
    rw [hmsg]
    simp [specMessage, specRules, ht, he, hi, hl]
    decide
  · intro h4
    rw [hmsg]
    unfold specMessage specRules
    by_cases h1 : st.TotalConns > 40 <;> by_cases h2 : st.EmptyAcquireCount > 1000 <;>
      by_cases h3 : st.MaxIdleDestroyCount > Int.tdiv st.TotalConns 2 <;>
      simp [h1, h2, h3, h4]
  · intro h1 h2 h3 h4
    rw [hmsg]
    simp [specMessage, specRules, h1, h2, h3, h4]

/-- The heavy-load sample, the same with 23 lifetime destroys, and a quiet sample. -/
theorem Health_last_match_wins_witness :
    (Health (fun _ => "0s") none statHeavy).get? "message" =
        some "The database is experiencing heavy load." ∧
      (Health (fun _ => "0s") none { statHeavy with MaxLifetimeDestroyCount := 23 }).get?
          "message" =
        some "Many connections are being closed due to max lifetime, consider increasing max lifetime or revising the connection usage pattern." ∧
      (Health (fun _ => "0s") none { statHeavy with TotalConns := 7 }).get? "message" =
        some "It's healthy" :=
  ⟨(Health_last_match_wins (fun _ => "0s") statHeavy).2.2.1 rfl rfl rfl rfl,
    (Health_last_match_wins (fun _ => "0s")
      { statHeavy with MaxLifetimeDestroyCount := 23 }).2.2.2.1 (by decide),
    (Health_last_match_wins (fun _ => "0s") { statHeavy with TotalConns := 7 }).2.2.2.2
      (by decide) (by decide) (by decide) (by decide)⟩

/-- C3: when the liveness check fails, whatever the cause and whatever the
pool statistics are, `Health` returns the map with exactly the two entries
`status = down` and `error = db down: <cause>`; the error text is not empty and
ends with the cause; the message and the seven statistic keys are absent; and
the result does not depend on the statistics. -/
theorem Health_down (durationString : Int → String) (cause : String) (st st' : Stat) :
    Health durationString (some cause) st =
      [("status", "down"), ("error", "db down: " ++ cause)] ∧
    (Health durationString (some cause) st).get? "status" = some "down" ∧
    (Health durationString (some cause) st).get? "error" = some ("db down: " ++ cause) ∧
    "db down: " ++ cause ≠ "" ∧
    (∀ k ∈ ["message", "total_connections", "acquired_connections", "idle_connections",
        "max_connections", "canceled_acquires", "acquisition_duration",
        "construction_wait_count"],
      (Health durationString (some cause) st).get? k = none) ∧
    Health durationString (some cause) st = Health durationString (some cause) st' := by
  have h : ∀ s : Stat, Health durationString (some cause) s =
      [("status", "down"), ("error", "db down: " ++ cause)] := by
    intro s
    simp [Health, StrMap.set, Sprintf_db_down]
  have hne : "db down: " ++ cause ≠ "" := by
    intro hc
    have hl := congrArg String.length hc
    have h9 : "db down: ".length = 9 := by decide
    have h0 : "".length = 0 := by decide
    rw [String.length_append, h9, h0] at hl
    omega
  refine ⟨h st, ?_, ?_, hne, ?_, by rw [h st, h st']⟩
  · rw [h st]; simp [StrMap.get?]
  · rw [h st]; simp [StrMap.get?]
  · intro k hk
    rw [h st]
    simp only [List.mem_cons, List.mem_singleton, List.not_mem_nil, or_false] at hk
    rcases hk with rfl | rfl | rfl | rfl | rfl | rfl | rfl | rfl <;> simp [StrMap.get?]

/-- C7: when the liveness check succeeds the map has exactly the nine keys
status, message, total_connections, acquired_connections, idle_connections,
max_connections, canceled_acquires, acquisition_duration and
construction_wait_count, each once and none of them `error`; the six counts
are `Itoa` of the sampled counters and the duration is its `String()`; and
`Itoa` writes a number as its sign and the decimal digits of its magnitude. -/
theorem Health_up_shape (durationString : Int → String) (st : Stat) :
    (Health durationString none st).keys =
      ["status", "message", "total_connections", "acquired_connections",
       "idle_connections", "max_connections", "canceled_acquires",
       "acquisition_duration", "construction_wait_count"] ∧
    (Health durationString none st).keys.Nodup ∧
    (∀ k, (Health durationString none st).get? k ≠ none ↔
      k ∈ ["status", "message", "total_connections", "acquired_connections",
       "idle_connections", "max_connections", "canceled_acquires",
       "acquisition_duration", "construction_wait_count"]) ∧
    (Health durationString none st).get? "error" = none ∧
    (Health durationString none st).get? "total_connections" = some (Itoa st.TotalConns) ∧
    (Health durationString none st).get? "acquired_connections" =
      some (Itoa st.AcquiredConns) ∧
    (Health durationString none st).get? "idle_connections" = some (Itoa st.IdleConns) ∧
    (Health durationString none st).get? "max_connections" = some (Itoa st.MaxConns) ∧
    (Health durationString none st).get? "canceled_acquires" =
      some (Itoa st.CanceledAcquireCount) ∧
    (Health durationString none st).get? "construction_wait_count" =
      some (Itoa st.EmptyAcquireCount) ∧
    (Health durationString none st).get? "acquisition_duration" =
      some (durationString st.AcquireDuration) ∧
    (∀ n : Int, Itoa n = (if n < 0 then "-" else "") ++ Nat.repr n.natAbs ∧
      decimalValue (Nat.repr n.natAbs).toList = n.natAbs) := by
  have hk : (Health durationString none st).keys =
      ["status", "message", "total_connections", "acquired_connections",
       "idle_connections", "max_connections", "canceled_acquires",
       "acquisition_duration", "construction_wait_count"] := by
    unfold Health
    by_cases h1 : st.TotalConns > 40 <;> by_cases h2 : st.EmptyAcquireCount > 1000 <;>
      by_cases h3 : st.MaxIdleDestroyCount > Int.tdiv st.TotalConns 2 <;>
      by_cases h4 : st.MaxLifetimeDestroyCount > Int.tdiv st.TotalConns 2 <;>
      simp [StrMap.set, StrMap.keys, h1, h2, h3, h4]
  have hv : ∀ k v, k ≠ "message" →
      StrMap.get? [("status", "up"), ("message", "It's healthy"),
        ("total_connections", Itoa st.TotalConns),
        ("acquired_connections", Itoa st.AcquiredConns),
        ("idle_connections", Itoa st.IdleConns),
        ("max_connections", Itoa st.MaxConns),
        ("canceled_acquires", Itoa st.CanceledAcquireCount),
        ("acquisition_duration", durationString st.AcquireDuration),
        ("construction_wait_count", Itoa st.EmptyAcquireCount)] k = v →
      (Health durationString none st).get? k = v := by
    intro k v hkm hget
    rw [← hget]
    have hkm' : ¬ "message" = k := fun h => hkm h.symm
    unfold Health
    by_cases h1 : st.TotalConns > 40 <;> by_cases h2 : st.EmptyAcquireCount > 1000 <;>
      by_cases h3 : st.MaxIdleDestroyCount > Int.tdiv st.TotalConns 2 <;>
      by_cases h4 : st.MaxLifetimeDestroyCount > Int.tdiv st.TotalConns 2 <;>
      simp [StrMap.set, StrMap.get?, h1, h2, h3, h4, hkm']
  refine ⟨hk, ?_, ?_, ?_, ?_, ?_, ?_, ?_, ?_, ?_, ?_, Itoa_decimal⟩
  · rw [hk]; decide
  · intro k
    rw [StrMap.get?_ne_none_iff, hk]
  · exact hv _ _ (by decide) (by simp [StrMap.get?])
  · exact hv _ _ (by decide) (by simp [StrMap.get?])
  · exact hv _ _ (by decide) (by simp [StrMap.get?])
  · exact hv _ _ (by decide) (by simp [StrMap.get?])
  · exact hv _ _ (by decide) (by simp [StrMap.get?])
  · exact hv _ _ (by decide) (by simp [StrMap.get?])
  · exact hv _ _ (by decide) (by simp [StrMap.get?])
  · exact hv _ _ (by decide) (by simp [StrMap.get?])

/-- The connection string of `cfgB` letter by letter, its place in the log,
and `cfgB` with another `DATABASE_URL` and another port of the server. -/
theorem connStr_format_witness :
    connStr cfgB = "postgres://app:pw@db.internal:6543/orders?sslmode=disable" ∧
      connStr cfgA = "postgres://postgres:@localhost:5432/piscineDB?sslmode=disable" ∧
      (New libOk cfgB World.init).2.calls.head? =
        some (Call.ParseConfig "postgres://app:pw@db.internal:6543/orders?sslmode=disable") ∧
      (∃ rest, (New libOk cfgB World.init).2.calls =
        World.init.calls ++ Call.ParseConfig (connStr cfgB) :: rest ∧
        ∀ s, Call.ParseConfig s ∉ rest) ∧
      connStr cfgB = connStr { cfgB with Env := { cfgB.Env with DatabaseURL := "postgres://other@elsewhere:1/x", Port := 1 } } ∧
      decimalValue (Nat.repr cfgB.Env.DBPort.natAbs).toList = 6543 :=
  ⟨(connStr_format libOk cfgB cfgB World.init).1.trans (by decide),
    (connStr_format libOk cfgA cfgA World.init).1.trans (by decide),
    by decide,
    (connStr_format libOk cfgB cfgB World.init).2.1 (by decide),
    (connStr_format libOk cfgB
      { cfgB with Env := { cfgB.Env with DatabaseURL := "postgres://other@elsewhere:1/x", Port := 1 } }
      World.init).2.2.1 rfl rfl rfl rfl rfl,
    (connStr_format libOk cfgB cfgB World.init).2.2.2.2⟩

/-- A `New` from the fresh process with a parser that proposes four connections. -/
theorem New_pool_policy_witness :
    (∃ rest, (New libNoPool cfgB World.init).2.calls =
        World.init.calls ++
          [Call.ParseConfig (connStr cfgB),
           Call.NewWithConfig (setPoolConfig
             { ConnConfig := connStr cfgB, MaxConns := 4, MinConns := 0, MaxConnLifetime := Hour,
               MaxConnIdleTime := 30 * Minute, HealthCheckPeriod := Minute })] ++ rest ∧
        ∀ c, Call.NewWithConfig c ∉ rest) :=
  (New_pool_policy libNoPool cfgB World.init
    { ConnConfig := connStr cfgB, MaxConns := 4, MinConns := 0, MaxConnLifetime := Hour,
      MaxConnIdleTime := 30 * Minute, HealthCheckPeriod := Minute } (by decide) rfl).1

/-! ## `Close` and the lifecycle -/

theorem closePool_length (ps : List PoolObj) (n : Nat) :
    (closePool ps n).length = ps.length := by
  induction ps generalizing n with
  | nil => rfl
  | cons p rest ih =>
    cases n with
    | zero => rfl
    | succ n => simp [closePool, ih]

/-- Closing a pool leaves every closed pool closed, at every address. -/
theorem closePool_closed (ps : List PoolObj) (n m : Nat) (po : PoolObj)
    (hm : ps[m]? = some po) (hc : po.closed = true) :
    ∃ po', (closePool ps n)[m]? = some po' ∧ po'.closed = true := by
  induction ps generalizing n m with
  | nil => simp at hm
  | cons p rest ih =>
    cases n with
    | zero =>
      cases m with
      | zero => exact ⟨{ p with closed := true }, by simp [closePool], rfl⟩
      | succ m => exact ⟨po, by simpa [closePool] using hm, hc⟩
    | succ n =>
      cases m with
      | zero => exact ⟨po, by simpa [closePool] using hm, hc⟩
      | succ m =>
        have hm' : rest[m]? = some po := by simpa using hm
        obtain ⟨po', h1, h2⟩ := ih n m hm'
        exact ⟨po', by simpa [closePool] using h1, h2⟩

/-- Closing the pool at an address marks it closed. -/
theorem closePool_at (ps : List PoolObj) (n : Nat) (po : PoolObj) (hn : ps[n]? = some po) :
    (closePool ps n)[n]? = some { po with closed := true } := by
  induction ps generalizing n with
  | nil => simp at hn
  | cons p rest ih =>
    cases n with
    | zero =>
      have : p = po := by simpa using hn
      simp [closePool, this]
    | succ n =>
      have hn' : rest[n]? = some po := by simpa using hn
      simpa [closePool] using ih n hn'

theorem lifecycle_closed_iff (w : World) :
    w.lifecycle = some .Closed ↔
      ∃ h db po, w.dbInstance = some h ∧ w.dbs[h]? = some db ∧
        w.pools[db.Client]? = some po ∧ po.closed = true := by
  unfold World.lifecycle World.storedPool
  cases hi : w.dbInstance with
  | none => simp
  | some h =>
    cases hd : w.dbs[h]? with
    | none => simp [hd]
    | some db =>
      cases hq : w.pools[db.Client]? with
      | none => simp [hd, hq]
      | some po => cases hc : po.closed <;> simp [hd, hq, hc]

/-- One call in the `Closed` state: the state stays `Closed`, the stored
instance and the heaps keep their size, and no pool constructor is called. -/
theorem step_closed (w : World) (op : Op) (hw : w.lifecycle = some .Closed) :
    (step w op).lifecycle = some .Closed ∧ (step w op).dbInstance = w.dbInstance ∧
      (step w op).dbs = w.dbs ∧ (step w op).pools.length = w.pools.length ∧
      ∀ c, Call.NewWithConfig c ∈ (step w op).calls → Call.NewWithConfig c ∈ w.calls := by
  obtain ⟨h, db, po, hi, hd, hq, hc⟩ := (lifecycle_closed_iff w).1 hw
  cases op with
  | New lib cfg =>
    have : step w (Op.New lib cfg) = w := by
      show (New lib cfg w).2 = w
      rw [New_of_stored lib cfg hi]
    rw [this]
    exact ⟨hw, rfl, rfl, rfl, fun _ hm => hm⟩
  | Close db' =>
    refine ⟨?_, rfl, rfl, closePool_length _ _, ?_⟩
    · obtain ⟨po', h1, h2⟩ := closePool_closed w.pools db'.Client db.Client po hq hc
      exact (lifecycle_closed_iff _).2 ⟨h, db, po', hi, hd, h1, h2⟩
    · intro c hm
      simpa [step, Close] using hm
  | Ping db' e => exact ⟨hw, rfl, rfl, rfl, fun _ hm => hm⟩
  | Health db' e st => exact ⟨hw, rfl, rfl, rfl, fun _ hm => hm⟩

theorem run_closed (ops : List Op) (w : World) (hw : w.lifecycle = some .Closed) :
    (run w ops).lifecycle = some .Closed ∧ (run w ops).dbInstance = w.dbInstance ∧
      (run w ops).dbs = w.dbs ∧ (run w ops).pools.length = w.pools.length ∧
      ∀ c, Call.NewWithConfig c ∈ (run w ops).calls → Call.NewWithConfig c ∈ w.calls := by
  induction ops generalizing w with
  | nil => exact ⟨hw, rfl, rfl, rfl, fun _ hm => hm⟩
  | cons op rest ih =>
    obtain ⟨s1, s2, s3, s4, s5⟩ := step_closed w op hw
    obtain ⟨r1, r2, r3, r4, r5⟩ := ih (step w op) s1
    exact ⟨r1, r2.trans s2, r3.trans s3, r4.trans s4, fun c hm => s5 c (r5 c hm)⟩

/-- C8: `Close` leaves `dbInstance` as it is; so after a successful first
`New` (state `Created`) and a `Close` of the returned instance the state is
`Closed`, and a further `New` with any configuration returns the same handle
with a nil error and changes nothing; and from a `Closed` state every sequence
of `New`, `Close`, `Ping` and `Health` calls ends in a `Closed` state with the
same stored instance, the same number of pools and no further call of the pool
constructor. -/
theorem no_recreation_after_close (lib lib' : Pgxpool) (cfg cfg' : Config) (w : World)
    (ops : List Op) :
    (∀ db, (Close db w).2.dbInstance = w.dbInstance) ∧
    (w.dbInstance = none → (New lib cfg w).1.err = none →
      ∃ h db, (New lib cfg w).1.db = some h ∧ (New lib cfg w).2.dbs[h]? = some db ∧
        (New lib cfg w).2.lifecycle = some .Created ∧
        (Close db (New lib cfg w).2).2.lifecycle = some .Closed ∧
        New lib' cfg' (Close db (New lib cfg w).2).2 =
          ({ db := some h, err := none }, (Close db (New lib cfg w).2).2) ∧
        (Close db (New lib cfg w).2).2.pools.length = (New lib cfg w).2.pools.length) ∧
    (w.lifecycle = some .Closed →
      (run w ops).lifecycle = some .Closed ∧
        (run w ops).dbInstance = w.dbInstance ∧
        (run w ops).pools.length = w.pools.length ∧
        (∀ c, Call.NewWithConfig c ∈ (run w ops).calls → Call.NewWithConfig c ∈ w.calls) ∧
        New lib' cfg' (run w ops) = ({ db := w.dbInstance, err := none }, run w ops)) := by
  refine ⟨fun _ => rfl, fun hw hok => ?_, fun hw => ?_⟩
  · cases hp : lib.ParseConfig (connStr cfg) with
    | error e => rw [New_of_parse_error lib cfg hw hp] at hok; simp at hok
    | ok parsed =>
      cases hn : lib.NewWithConfig (setPoolConfig parsed) with
      | some e => rw [New_of_pool_error lib cfg hw hp hn] at hok; simp at hok
      | none =>
        have hst := storedPool_New_of_success lib cfg hw hp hn
        rw [New_of_success lib cfg hw hp hn] at hst ⊢
        refine ⟨w.dbs.length, DB.mk w.pools.length, rfl, by simp, ?_, ?_, ?_, ?_⟩
        · simp [World.lifecycle, World.storedPool]
        · refine (lifecycle_closed_iff _).2
            ⟨w.dbs.length, DB.mk w.pools.length,
              { PoolObj.mk (setPoolConfig parsed) false with closed := true }, rfl, by simp [Close],
              ?_, rfl⟩
          exact closePool_at _ _ _ (by simp)
        · exact New_of_stored lib' cfg' rfl
        · exact closePool_length _ _
  · obtain ⟨r1, r2, _, r4, r5⟩ := run_closed ops w hw
    obtain ⟨h, _, _, hi, _⟩ := (lifecycle_closed_iff w).1 hw
    refine ⟨r1, r2, r4, r5, ?_⟩
    rw [hi]
    exact New_of_stored lib' cfg' (r2.trans hi)

/-- C10: `Close` returns a nil error for every `DB` and every state of the
pools, also when the pool was closed before. -/
theorem Close_returns_nil (db : DB) (w : World) :
    (Close db w).1 = none ∧ (Close db (Close db w).2).1 = none :=
  ⟨rfl, rfl⟩

/-- A `New`, a `Close` of the instance, and five further calls, from the fresh process. -/
theorem no_recreation_after_close_witness :
    (∃ h db, (New libOk cfgA World.init).1.db = some h ∧
      (New libOk cfgA World.init).2.dbs[h]? = some db ∧
      (New libOk cfgA World.init).2.lifecycle = some .Created ∧
      (Close db (New libOk cfgA World.init).2).2.lifecycle = some .Closed ∧
      New libOk cfgB (Close db (New libOk cfgA World.init).2).2 =
        ({ db := some h, err := none }, (Close db (New libOk cfgA World.init).2).2) ∧
      (Close db (New libOk cfgA World.init).2).2.pools.length =
        (New libOk cfgA World.init).2.pools.length) ∧
    ((run (Close (DB.mk 0) (New libOk cfgA World.init).2).2
        [Op.New libOk cfgB, Op.Close (DB.mk 0), Op.Ping (DB.mk 0) none,
         Op.Health (DB.mk 0) none statHeavy, Op.New libOk cfgA]).lifecycle = some .Closed ∧
      (run (Close (DB.mk 0) (New libOk cfgA World.init).2).2
        [Op.New libOk cfgB, Op.Close (DB.mk 0), Op.Ping (DB.mk 0) none,
         Op.Health (DB.mk 0) none statHeavy, Op.New libOk cfgA]).pools.length = 1) :=
  ⟨(no_recreation_after_close libOk libOk cfgA cfgB World.init []).2.1 (by decide) (by decide),
    ((no_recreation_after_close libOk libOk cfgA cfgB
        (Close (DB.mk 0) (New libOk cfgA World.init).2).2
        [Op.New libOk cfgB, Op.Close (DB.mk 0), Op.Ping (DB.mk 0) none,
         Op.Health (DB.mk 0) none statHeavy, Op.New libOk cfgA]).2.2 (by decide)).1,
    ((no_recreation_after_close libOk libOk cfgA cfgB
        (Close (DB.mk 0) (New libOk cfgA World.init).2).2
        [Op.New libOk cfgB, Op.Close (DB.mk 0), Op.Ping (DB.mk 0) none,
         Op.Health (DB.mk 0) none statHeavy, Op.New libOk cfgA]).2.2 (by decide)).2.2.1⟩

/-! ## `New` under interleaving -/

/-- A goroutine that runs alone goes through `New` in at most four steps and
ends with the result and the state of `New`. -/
theorem runAlone_eq_New (lib : Pgxpool) (cfg : Config) (w : World) :
    runAlone lib cfg 4 (.line31, w) = (.returned (New lib cfg w).1, (New lib cfg w).2) := by
  cases hw : w.dbInstance with
  | some h =>
    rw [New_of_stored lib cfg hw]
    simp [runAlone, NewStep, hw]
  | none =>
    cases hp : lib.ParseConfig (connStr cfg) with
    | error e =>
      rw [New_of_parse_error lib cfg hw hp]
      simp [runAlone, NewStep, hw, hp]
    | ok parsed =>
      cases hn : lib.NewWithConfig (setPoolConfig parsed) with
      | some e =>
        rw [New_of_pool_error lib cfg hw hp hn]
        simp [runAlone, NewStep, hw, hp, hn]
      | none =>
        rw [New_of_success lib cfg hw hp hn]
        simp [runAlone, NewStep, hw, hp, hn]

/-- C9 fails on the code: two goroutines enter `New` in the uninitialized
state; under the schedule in which both test `dbInstance` before either stores
it, both build a pool, so two pools exist and the two callers return different
handles. -/
theorem New_race_builds_two_pools :
    ((schedRun ([Goroutine.mk libOk cfgA .line31, Goroutine.mk libOk cfgB .line31], World.init)
        [0, 1, 0, 0, 0, 1, 1, 1]).1.map Goroutine.pc =
      [.returned { db := some 0, err := none }, .returned { db := some 1, err := none }]) ∧
    (schedRun ([Goroutine.mk libOk cfgA .line31, Goroutine.mk libOk cfgB .line31], World.init)
        [0, 1, 0, 0, 0, 1, 1, 1]).2.pools.length = 2 ∧
    (schedRun ([Goroutine.mk libOk cfgA .line31, Goroutine.mk libOk cfgB .line31], World.init)
        [0, 1, 0, 0, 0, 1, 1, 1]).2.dbs = [DB.mk 0, DB.mk 1] := by
  decide

end Database
